import Mathlib

/-!
# Verification of the database-connection module

Shallow embedding of `src/db_connection.py` (classes `DatabaseConfig` and
`DatabaseConnection`).  External effects — the JSON configuration file, the
schema file, and the MySQL driver (`mysql.connector`) — are modelled
explicitly: files as `Option` values (present with parsed content, or
absent), and the driver as an oracle (`Driver`) that fixes, for each driver
primitive, whether it succeeds or raises a `mysql.connector.Error` (per the
driver's documented contract, driver primitives raise `Error`).  Every
operation returns its result (`Except Exc _`), the updated connection
handle, and the trace of driver events it performed, so that "commit is
invoked exactly once" and similar claims are statements about traces.
-/

namespace DbConn

/-- A JSON scalar value as it appears inside a config section
(strings or integers, per the config schema). -/
inductive Value
  | str (s : String)
  | int (n : Int)
deriving DecidableEq, Repr

/-- One top-level section of the config file: a mapping from keys to values
(first binding wins, as in a Python dict with unique keys). -/
abbrev ConfigSection := List (String × Value)

/-- The parsed configuration file: a mapping from section names to sections. -/
abbrev ConfigFile := List (String × ConfigSection)

/-- The Python exceptions the module can raise or propagate:
`driver` is `mysql.connector.Error`, `fileNotFound` is
`FileNotFoundError`/`OSError` from `open`/`os.path.exists`, `keyError` is a
`KeyError` from a missing dict key, `valueError` is the `ValueError` raised
by `load_config`. -/
inductive Exc
  | driver (msg : String)
  | fileNotFound (msg : String)
  | keyError (msg : String)
  | valueError (msg : String)
deriving DecidableEq, Repr

/-- Whether an `Except` result is a propagated `mysql.connector.Error`. -/
def isDriverRes {α : Type} : Except Exc α → Bool
  | .error (.driver _) => true
  | _ => false

/-- Model of `DatabaseConfig.load_config`: the file state is the `Option`al parsed
content of `self.config_file`.  Missing file raises `FileNotFoundError`;
a file without a `database` key raises `ValueError`; otherwise the
`database` section is returned. -/
def load_config (fs : Option ConfigFile) : Except Exc ConfigSection :=
  match fs with
  | none => .error (.fileNotFound "Configuration file not found. Please create it from my.json.example")
  | some file =>
    match file.lookup "database" with
    | none => .error (.valueError "Database configuration not found in my.json")
    | some sec => .ok sec

/-- The state of a `DatabaseConfig` instance after `__init__`: the
`database` section cached in `self.config`. -/
structure DatabaseConfig where
  config : ConfigSection
deriving DecidableEq, Repr

/-- Model of `DatabaseConfig.get_telegram_config`: re-opens the file (raising
`FileNotFoundError` if it is now absent) and returns `config.get('telegram', {})`.
The cached `dc.config` is not consulted, mirroring the source, which reads
the file again instead of using `self.config`. -/
def get_telegram_config (_dc : DatabaseConfig) (fs : Option ConfigFile) :
    Except Exc ConfigSection :=
  match fs with
  | none => .error (.fileNotFound "Configuration file not found")
  | some file => .ok ((file.lookup "telegram").getD [])

/-- The keyword arguments `DatabaseConnection.connect` passes to
`mysql.connector.connect`. -/
structure ConnectParams where
  host : Value
  port : Value
  user : Value
  password : Value
  database : Value
  charset : Value
deriving DecidableEq, Repr

/-- Evaluation of the argument expressions of the `mysql.connector.connect`
call in `connect`: `config['host']`, `config.get('port', 3306)`,
`config['user']`, `config['password']`, `config['database']`,
`config.get('charset', 'utf8mb4')`.  A missing required key raises
`KeyError` (which is not a `mysql.connector.Error`). -/
def connectParams (cfg : ConfigSection) : Except Exc ConnectParams :=
  match cfg.lookup "host" with
  | none => .error (.keyError "host")
  | some host =>
  match cfg.lookup "user" with
  | none => .error (.keyError "user")
  | some user =>
  match cfg.lookup "password" with
  | none => .error (.keyError "password")
  | some password =>
  match cfg.lookup "database" with
  | none => .error (.keyError "database")
  | some database =>
    .ok { host := host
          port := (cfg.lookup "port").getD (.int 3306)
          user := user
          password := password
          database := database
          charset := (cfg.lookup "charset").getD (.str "utf8mb4") }

/-- The driver oracle: for each `mysql.connector` primitive the module
calls, whether it succeeds or raises a `mysql.connector.Error` (whose
message is the `String`).  `connectRes` on success also fixes whether the
returned handle reports `is_connected()`. -/
structure Driver where
  connectRes : Except String Bool
  cursorRes : Option String
  executeRes : String → Option String
  fetchoneRes : Option String
  commitRes : Option String
  rollbackRes : Option String
  cursorCloseRes : Option String
  connCloseRes : Option String

/-- Observable driver events, in the order the module performs them. -/
inductive Event
  | connectCall (p : ConnectParams)
  | cursorCreate
  | execute (stmt : String)
  | fetchone
  | commit
  | rollback
  | cursorClose
  | connClose
deriving DecidableEq, Repr

/-- Number of occurrences of an event in a trace. -/
def countEv (e : Event) (tr : List Event) : Nat :=
  (tr.filter (fun x => x = e)).length

/-- The manager's connection handle: `none` is Python `None`; `some b`
is a live handle object whose `is_connected()` returns `b`. -/
abbrev ConnState := Option Bool

/-- The manager holds no usable connection: the handle is `None`, or it is
a handle whose `is_connected()` is false. -/
def disconnectedSt (st : ConnState) : Prop := st = none ∨ st = some false

/-- Model of `DatabaseConnection.connect`: evaluates the call's arguments from
config (may raise `KeyError`), then calls `mysql.connector.connect`.  On a
driver `Error` the except clause prints and re-raises; a non-`Error`
exception propagates uncaught.  In both failure cases the assignment
`self.connection = ...` never executes, so the stored handle is unchanged.
On success the new handle is stored. -/
def connect (d : Driver) (cfg : ConfigSection) (st : ConnState) :
    Except Exc Unit × ConnState × List Event :=
  match connectParams cfg with
  | .error e => (.error e, st, [])
  | .ok p =>
    match d.connectRes with
    | .error m => (.error (.driver m), st, [.connectCall p])
    | .ok isConn => (.ok (), some isConn, [.connectCall p])

/-- Model of `DatabaseConnection.disconnect`: `if self.connection and
self.connection.is_connected(): self.connection.close()`.  Closing a live
handle flips its `is_connected()` to false; the attribute itself is never
reset to `None`.  A close failure raises a driver `Error`. -/
def disconnect (d : Driver) (st : ConnState) :
    Option String × ConnState × List Event :=
  match st with
  | some true =>
    match d.connCloseRes with
    | some m => (some m, some true, [.connClose])
    | none => (none, some false, [.connClose])
  | _ => (none, st, [])

/-- The part of `get_cursor`'s try body before the `yield`: the lazy
connect (`if not self.connection or not self.connection.is_connected():
self.connect()`) followed by `cursor = self.connection.cursor(...)`.
Returns whether that part raised, the updated handle, whether the local
`cursor` variable was assigned (so the `finally` will close it), and the
trace.  A raised driver `Error` from `self.connect()` or from `cursor(...)`
reaches `get_cursor`'s except clause like any other. -/
def preBlock (d : Driver) (cfg : ConfigSection) (st : ConnState) :
    Except Exc Unit × ConnState × Bool × List Event :=
  let conn : Except Exc Unit × ConnState × List Event :=
    if st = some true then (.ok (), st, []) else connect d cfg st
  match conn with
  | (.error e, st1, tr1) => (.error e, st1, false, tr1)
  | (.ok _, st1, tr1) =>
    match d.cursorRes with
    | some m => (.error (.driver m), st1, false, tr1 ++ [.cursorCreate])
    | none => (.ok (), st1, true, tr1 ++ [.cursorCreate])

/-- Model of `DatabaseConnection.get_cursor` (the `@contextmanager` generator), run
against a caller's operation block.  The block is given by its outcome: its
result (the value it returns, or the exception it raises into the `yield`)
and the trace of cursor events it performed.  Semantics of the source:

  * try: lazy connect, create cursor, run the block, then
    `self.connection.commit()`;
  * `except Error as e`: only a driver `Error` is caught; then
    `if self.connection: self.connection.rollback()`, print, `raise`.
    A rollback failure replaces the exception being propagated;
  * finally: `if cursor: cursor.close()`; a close failure replaces
    whatever outcome (return or exception) was pending. -/
def get_cursor {α : Type} (d : Driver) (cfg : ConfigSection) (st : ConnState)
    (block : Except Exc α × List Event) :
    Except Exc α × ConnState × List Event :=
  let (pres, st1, cursorMade, tr1) := preBlock d cfg st
  let bodyRes : Except Exc α × List Event :=
    match pres with
    | .error e => (.error e, tr1)
    | .ok _ =>
      match block with
      | (.error e, btr) => (.error e, tr1 ++ btr)
      | (.ok a, btr) =>
        match d.commitRes with
        | some m => (.error (.driver m), tr1 ++ btr ++ [.commit])
        | none => (.ok a, tr1 ++ btr ++ [.commit])
  let handled : Except Exc α × List Event :=
    match bodyRes with
    | (.error (.driver m), tr2) =>
      if st1 = none then (.error (.driver m), tr2)
      else
        match d.rollbackRes with
        | some m2 => (.error (.driver m2), tr2 ++ [.rollback])
        | none => (.error (.driver m), tr2 ++ [.rollback])
    | r => r
  match handled with
  | (res2, tr3) =>
    if cursorMade then
      match d.cursorCloseRes with
      | some m => (.error (.driver m), st1, tr3 ++ [.cursorClose])
      | none => (res2, st1, tr3 ++ [.cursorClose])
    else (res2, st1, tr3)

/-- Python `str.split(';')`: splits at every semicolon, keeping empty
fragments, so `"".split(';') == ['']` and `"b;".split(';') == ['b', '']`. -/
def splitSemi : List Char → List (List Char)
  | [] => [[]]
  | c :: rest =>
    let parts := splitSemi rest
    if c = ';' then [] :: parts
    else
      match parts with
      | [] => [[c]]
      | p :: ps => (c :: p) :: ps

/-- The ASCII whitespace characters `str.strip()` removes
(space, tab, newline, carriage return, vertical tab, form feed). -/
def isSpace (c : Char) : Bool :=
  c = ' ' || c = '\t' || c = '\n' || c = '\r' || c = '\x0b' || c = '\x0c'

/-- Python `str.strip()` (for ASCII whitespace): drop leading and trailing
whitespace characters. -/
def stripChars (l : List Char) : List Char :=
  ((l.dropWhile isSpace).reverse.dropWhile isSpace).reverse

/-- The statement list `execute_schema` builds:
`[stmt.strip() for stmt in schema_sql.split(';') if stmt.strip()]`
(split at semicolons, strip each fragment, keep the non-empty ones). -/
def splitStatements (schema_sql : String) : List String :=
  (((splitSemi schema_sql.toList).map stripChars).filter (fun l => l ≠ [])).map
    (fun l => String.mk l)

/-- The loop body of `execute_schema` inside the scoped cursor:
`for statement in statements: if statement: cursor.execute(statement)`,
stopping at the first statement whose execution raises. -/
def runStatements (d : Driver) : List String → Except Exc Unit × List Event
  | [] => (.ok (), [])
  | s :: rest =>
    if s = "" then runStatements d rest
    else
      match d.executeRes s with
      | some m => (.error (.driver m), [.execute s])
      | none =>
        match runStatements d rest with
        | (r, tr) => (r, .execute s :: tr)

/-- Model of `DatabaseConnection.execute_schema`: reads the schema file (the
`Option String` is its `Option`al text content; an absent file makes
`open` raise `FileNotFoundError`, which the `except Error` clause does not
catch, so it propagates unhandled), splits into statements, and runs them
all inside one `get_cursor` scope.  The outer `except Error` clause only
prints and re-raises, so it does not change the outcome. -/
def execute_schema (d : Driver) (cfg : ConfigSection) (st : ConnState)
    (schemaFile : Option String) :
    Except Exc Unit × ConnState × List Event :=
  match schemaFile with
  | none => (.error (.fileNotFound "schema file not found"), st, [])
  | some schema_sql =>
    get_cursor d cfg st (runStatements d (splitStatements schema_sql))

/-- The operation block of `test_connection`:
`cursor.execute("SELECT VERSION()")`, then `cursor.fetchone()`, then
return `True`. -/
def testBlock (d : Driver) : Except Exc Bool × List Event :=
  match d.executeRes "SELECT VERSION()" with
  | some m => (.error (.driver m), [.execute "SELECT VERSION()"])
  | none =>
    match d.fetchoneRes with
    | some m => (.error (.driver m), [.execute "SELECT VERSION()", .fetchone])
    | none => (.ok true, [.execute "SELECT VERSION()", .fetchone])

/-- Model of `DatabaseConnection.test_connection`: try `self.connect()`, then the
`SELECT VERSION()` block inside `get_cursor` (the `return True` inside the
`with` still runs the generator's commit on exit); `except Error` converts
a driver `Error` into `return False`; non-`Error` exceptions propagate;
`finally: self.disconnect()`, and an exception raised by `close` there
replaces the pending outcome. -/
def test_connection (d : Driver) (cfg : ConfigSection) (st : ConnState) :
    Except Exc Bool × ConnState × List Event :=
  let body : Except Exc Bool × ConnState × List Event :=
    match connect d cfg st with
    | (.error e, st1, tr1) => (.error e, st1, tr1)
    | (.ok _, st1, tr1) =>
      match get_cursor d cfg st1 (testBlock d) with
      | (r, st2, tr2) => (r, st2, tr1 ++ tr2)
  match body with
  | (bodyRes, st2, tr2) =>
    let res2 : Except Exc Bool :=
      match bodyRes with
      | .error (.driver _) => .ok false
      | r => r
    match disconnect d st2 with
    | (some m, st3, tr3) => (.error (.driver m), st3, tr2 ++ tr3)
    | (none, st3, tr3) => (res2, st3, tr2 ++ tr3)

/-- The sequence of SQL texts passed to `cursor.execute` in a trace, in
order. -/
def executedOf : List Event → List String
  | [] => []
  | .execute s :: tr => s :: executedOf tr
  | _ :: tr => executedOf tr

/-- Whether an exception is a `mysql.connector.Error` (the only kind the
module's `except Error` clauses catch). -/
def isDriverExc : Exc → Bool
  | .driver _ => true
  | _ => false

/-- The condition under which `get_cursor`'s try body reaches the `yield`,
so that the caller's operation block actually runs: either the manager is
already connected, or the lazy connect succeeds (config has the required
keys and the driver connects), and cursor creation succeeds. -/
def reaches (d : Driver) (cfg : ConfigSection) (st : ConnState) : Prop :=
  (st = some true ∨ ((∃ p, connectParams cfg = .ok p) ∧ ∃ b, d.connectRes = .ok b)) ∧
    d.cursorRes = none

/-- An operation block that only uses the cursor it was yielded: its own
trace contains no commit, rollback or cursor-close events, so those events
in the full trace are exactly the ones `get_cursor` itself performs. -/
def tameBlock (btr : List Event) : Prop :=
  countEv .commit btr = 0 ∧ countEv .rollback btr = 0 ∧ countEv .cursorClose btr = 0

/-- A driver on which every primitive succeeds (used to instantiate
theorems at concrete inputs). -/
def driverAllOk : Driver :=
  { connectRes := .ok true
    cursorRes := none
    executeRes := fun _ => none
    fetchoneRes := none
    commitRes := none
    rollbackRes := none
    cursorCloseRes := none
    connCloseRes := none }

/-- Whether an `Except` result is a normal return (no exception). -/
def isOkRes {α : Type} : Except Exc α → Bool
  | .ok _ => true
  | .error _ => false

/-- Whether an `Except` result is a normal return or a driver `Error` —
the two outcomes an `except Error` clause around the computation can
normalize. -/
def okOrDriverRes {α : Type} : Except Exc α → Bool
  | .ok _ => true
  | .error (.driver _) => true
  | _ => false

/-- The schema text from the spec's concrete example. -/
def sqlC2 : String := "CREATE TABLE a(id INT);  ;CREATE TABLE b(id INT);"

/-- A driver on which everything succeeds except executing the second
CREATE TABLE statement of the sample schema. -/
def driverFailB : Driver :=
  { connectRes := .ok true
    cursorRes := none
    executeRes := fun s => if s = "CREATE TABLE b(id INT)" then some "dup" else none
    fetchoneRes := none
    commitRes := none
    rollbackRes := none
    cursorCloseRes := none
    connCloseRes := none }

/-- A sample database section with all required keys and no optional ones. -/
def cfgSample : ConfigSection :=
  [("host", .str "localhost"), ("user", .str "root"),
   ("password", .str "pw"), ("database", .str "tgdb")]

/-- A sample database section that also sets the optional keys. -/
def cfgExplicit : ConfigSection :=
  [("host", .str "localhost"), ("user", .str "root"),
   ("password", .str "pw"), ("database", .str "tgdb"),
   ("port", .int 3307), ("charset", .str "latin1")]

/-! ## Trace-counting lemmas -/

lemma countEv_nil (e : Event) : countEv e [] = 0 := rfl

lemma countEv_append (e : Event) (l1 l2 : List Event) :
    countEv e (l1 ++ l2) = countEv e l1 + countEv e l2 := by
  simp [countEv, List.filter_append]

lemma countEv_cons (e x : Event) (tr : List Event) :
    countEv e (x :: tr) = (if x = e then 1 else 0) + countEv e tr := by
  by_cases h : x = e <;> simp [countEv, List.filter_cons, h, Nat.add_comm]

lemma executedOf_append (l1 l2 : List Event) :
    executedOf (l1 ++ l2) = executedOf l1 ++ executedOf l2 := by
  induction l1 with
  | nil => rfl
  | cons x xs ih => cases x <;> simp [executedOf, ih]

/-! ## The pre-yield phase of `get_cursor` -/

lemma preBlock_reaches {d : Driver} {cfg : ConfigSection} {st : ConnState}
    (h : reaches d cfg st) :
    ∃ st1 tr0, preBlock d cfg st = (.ok (), st1, true, tr0) ∧ st1 ≠ none ∧
      countEv .commit tr0 = 0 ∧ countEv .rollback tr0 = 0 ∧
      countEv .cursorClose tr0 = 0 ∧ executedOf tr0 = [] := by
  obtain ⟨hconn, hcur⟩ := h
  by_cases hst : st = some true
  · refine ⟨st, [.cursorCreate], ?_, by simp [hst], by simp [countEv], by simp [countEv],
      by simp [countEv], rfl⟩
    simp [preBlock, hst, hcur]
  · rcases hconn with hst' | ⟨⟨p, hp⟩, ⟨b, hb⟩⟩
    · exact absurd hst' hst
    · refine ⟨some b, [.connectCall p, .cursorCreate], ?_, by simp, ?_, ?_, ?_, rfl⟩
      · simp [preBlock, hst, connect, hp, hb, hcur]
      · simp [countEv, List.filter_cons]
      · simp [countEv, List.filter_cons]
      · simp [countEv, List.filter_cons]

/-- The trace of `get_cursor` around a normally-completing block: commit is
attempted; if it fails, rollback follows; the cursor close always ends the
trace. -/
lemma get_cursor_trace_block_ok {α : Type} (d : Driver) (cfg : ConfigSection)
    (st : ConnState) (a : α) (btr : List Event) (st1 : ConnState) (tr0 : List Event)
    (hpre : preBlock d cfg st = (.ok (), st1, true, tr0)) (hst1 : st1 ≠ none) :
    (get_cursor d cfg st (.ok a, btr)).2.2 = tr0 ++ btr ++ [.commit, .cursorClose] ∨
    (get_cursor d cfg st (.ok a, btr)).2.2 = tr0 ++ btr ++ [.commit, .rollback, .cursorClose] := by
  rcases hcm : d.commitRes with _ | m1
  · rcases hclo : d.cursorCloseRes with _ | m3 <;>
      simp [get_cursor, hpre, hst1, hcm, hclo]
  · rcases hrb : d.rollbackRes with _ | m2 <;>
      rcases hclo : d.cursorCloseRes with _ | m3 <;>
        simp [get_cursor, hpre, hst1, hcm, hrb, hclo]

/-- C1: for every operation block run inside `get_cursor` that raises a
driver `Error` (the cursor having been reached, the block not itself
committing/rolling back/closing, and rollback and cursor close themselves
succeeding), the connection's rollback is invoked exactly once, the cursor
is closed exactly once, and the same error propagates to the caller. -/
theorem claim_C1_rollback_once (α : Type) (d : Driver) (cfg : ConfigSection)
    (st : ConnState) (m : String) (btr : List Event)
    (hreach : reaches d cfg st) (htame : tameBlock btr)
    (hrb : d.rollbackRes = none) (hcl : d.cursorCloseRes = none) :
    countEv .rollback (get_cursor d cfg st ((Except.error (Exc.driver m) : Except Exc α), btr)).2.2 = 1 ∧
    countEv .cursorClose (get_cursor d cfg st ((Except.error (Exc.driver m) : Except Exc α), btr)).2.2 = 1 ∧
    (get_cursor d cfg st ((Except.error (Exc.driver m) : Except Exc α), btr)).1 =
      .error (.driver m) := by
  obtain ⟨st1, tr0, hpre, hst1, hc0, hr0, hcl0, _⟩ := preBlock_reaches hreach
  obtain ⟨hbc, hbr, hbcl⟩ := htame
  have heq : get_cursor d cfg st ((Except.error (Exc.driver m) : Except Exc α), btr) =
      (.error (.driver m), st1, tr0 ++ btr ++ [.rollback, .cursorClose]) := by
    simp [get_cursor, hpre, hst1, hrb, hcl]
  rw [heq]
  refine ⟨?_, ?_, rfl⟩ <;>
    simp [countEv_append, countEv_cons, hr0, hcl0, hbr, hbcl, countEv_nil]

/-- C5: for every operation block run inside `get_cursor` that completes
normally (the cursor having been reached and the block not itself
committing/rolling back/closing), commit is invoked exactly once, the
cursor is closed exactly once, and the commit happens before the cursor
close — with no assumption that commit, rollback or close succeed. -/
theorem claim_C5_commit_once (α : Type) (d : Driver) (cfg : ConfigSection)
    (st : ConnState) (a : α) (btr : List Event)
    (hreach : reaches d cfg st) (htame : tameBlock btr) :
    countEv .commit (get_cursor d cfg st (.ok a, btr)).2.2 = 1 ∧
    countEv .cursorClose (get_cursor d cfg st (.ok a, btr)).2.2 = 1 ∧
    ∃ pre mid, (get_cursor d cfg st (.ok a, btr)).2.2 = pre ++ .commit :: mid ∧
      Event.cursorClose ∈ mid := by
  obtain ⟨st1, tr0, hpre, hst1, hc0, hr0, hcl0, _⟩ := preBlock_reaches hreach
  obtain ⟨hbc, hbr, hbcl⟩ := htame
  rcases get_cursor_trace_block_ok d cfg st a btr st1 tr0 hpre hst1 with heq | heq <;>
    rw [heq]
  · refine ⟨?_, ?_, tr0 ++ btr, [.cursorClose], by simp, by simp⟩ <;>
      simp [countEv_append, countEv_cons, hc0, hcl0, hbc, hbcl, countEv_nil]
  · refine ⟨?_, ?_, tr0 ++ btr, [.rollback, .cursorClose], by simp, by simp⟩ <;>
      simp [countEv_append, countEv_cons, hc0, hcl0, hbc, hbcl, countEv_nil]

/-- C10 (implicit): if the operation block raises an exception that is not
a driver `Error`, the cursor is still closed (exactly once, the close
itself succeeding) before the exception propagates unchanged, but neither
commit nor rollback is invoked. -/
theorem claim_C10_non_driver_exc (α : Type) (d : Driver) (cfg : ConfigSection)
    (st : ConnState) (e : Exc) (btr : List Event)
    (hreach : reaches d cfg st) (htame : tameBlock btr)
    (hnd : isDriverExc e = false) (hcl : d.cursorCloseRes = none) :
    (get_cursor d cfg st ((Except.error e : Except Exc α), btr)).1 = .error e ∧
    countEv .commit (get_cursor d cfg st ((Except.error e : Except Exc α), btr)).2.2 = 0 ∧
    countEv .rollback (get_cursor d cfg st ((Except.error e : Except Exc α), btr)).2.2 = 0 ∧
    countEv .cursorClose (get_cursor d cfg st ((Except.error e : Except Exc α), btr)).2.2 = 1 := by
  obtain ⟨st1, tr0, hpre, hst1, hc0, hr0, hcl0, _⟩ := preBlock_reaches hreach
  obtain ⟨hbc, hbr, hbcl⟩ := htame
  have heq : get_cursor d cfg st ((Except.error e : Except Exc α), btr) =
      (.error e, st1, tr0 ++ btr ++ [.cursorClose]) := by
    cases e with
    | driver m => simp [isDriverExc] at hnd
    | fileNotFound m => simp [get_cursor, hpre, hst1, hcl]
    | keyError m => simp [get_cursor, hpre, hst1, hcl]
    | valueError m => simp [get_cursor, hpre, hst1, hcl]
  rw [heq]
  refine ⟨rfl, ?_, ?_, ?_⟩ <;>
    simp [countEv_append, countEv_cons, hc0, hr0, hcl0, hbc, hbr, hbcl, countEv_nil]

/-- Witness for C1 at a concrete driver, config, state and failing block. -/
theorem claim_C1_rollback_once_witness :
    countEv .rollback (get_cursor driverAllOk cfgSample (some true)
      ((Except.error (Exc.driver "dup") : Except Exc Unit), [.execute "X"])).2.2 = 1 ∧
    countEv .cursorClose (get_cursor driverAllOk cfgSample (some true)
      ((Except.error (Exc.driver "dup") : Except Exc Unit), [.execute "X"])).2.2 = 1 ∧
    (get_cursor driverAllOk cfgSample (some true)
      ((Except.error (Exc.driver "dup") : Except Exc Unit), [.execute "X"])).1 =
      .error (.driver "dup") :=
  claim_C1_rollback_once Unit driverAllOk cfgSample (some true) "dup" [.execute "X"]
    ⟨Or.inl rfl, rfl⟩ ⟨by decide, by decide, by decide⟩ rfl rfl

/-- Witness for C5 at a concrete driver, config, state and block. -/
theorem claim_C5_commit_once_witness :
    countEv .commit (get_cursor driverAllOk cfgSample (some true)
      ((Except.ok true : Except Exc Bool), [.execute "X"])).2.2 = 1 ∧
    countEv .cursorClose (get_cursor driverAllOk cfgSample (some true)
      ((Except.ok true : Except Exc Bool), [.execute "X"])).2.2 = 1 ∧
    ∃ pre mid, (get_cursor driverAllOk cfgSample (some true)
      ((Except.ok true : Except Exc Bool), [.execute "X"])).2.2 = pre ++ .commit :: mid ∧
      Event.cursorClose ∈ mid :=
  claim_C5_commit_once Bool driverAllOk cfgSample (some true) true [.execute "X"]
    ⟨Or.inl rfl, rfl⟩ ⟨by decide, by decide, by decide⟩

/-- Witness for C10 at a concrete driver, config, state and a block raising
a `KeyError`. -/
theorem claim_C10_non_driver_exc_witness :
    (get_cursor driverAllOk cfgSample (some true)
      ((Except.error (Exc.keyError "k") : Except Exc Unit), [.execute "X"])).1 =
      .error (.keyError "k") ∧
    countEv .commit (get_cursor driverAllOk cfgSample (some true)
      ((Except.error (Exc.keyError "k") : Except Exc Unit), [.execute "X"])).2.2 = 0 ∧
    countEv .rollback (get_cursor driverAllOk cfgSample (some true)
      ((Except.error (Exc.keyError "k") : Except Exc Unit), [.execute "X"])).2.2 = 0 ∧
    countEv .cursorClose (get_cursor driverAllOk cfgSample (some true)
      ((Except.error (Exc.keyError "k") : Except Exc Unit), [.execute "X"])).2.2 = 1 :=
  claim_C10_non_driver_exc Unit driverAllOk cfgSample (some true) (.keyError "k") [.execute "X"]
    ⟨Or.inl rfl, rfl⟩ ⟨by decide, by decide, by decide⟩ rfl rfl

/-- C4: `load_config` raises `FileNotFoundError` when the config file does
not exist, raises `ValueError` (the module's config-invalid error) when the
file exists but lacks the `database` key — never silently defaulting — and
otherwise returns exactly the `database` section of the file. -/
theorem claim_C4_load_config (fs : Option ConfigFile) :
    (fs = none → ∃ m, load_config fs = .error (.fileNotFound m)) ∧
    (∀ file, fs = some file → file.lookup "database" = none →
      ∃ m, load_config fs = .error (.valueError m)) ∧
    (∀ file sec, fs = some file → file.lookup "database" = some sec →
      load_config fs = .ok sec) := by
  refine ⟨?_, ?_, ?_⟩
  · rintro rfl
    exact ⟨_, rfl⟩
  · rintro file rfl hdb
    exact ⟨"Database configuration not found in my.json", by simp [load_config, hdb]⟩
  · rintro file sec rfl hdb
    simp [load_config, hdb]

/-- Witness for C4: a file whose `database` section is returned as-is. -/
theorem claim_C4_load_config_witness :
    load_config (some [("telegram", [("api", Value.int 7)]),
      ("database", [("host", Value.str "h")])]) = .ok [("host", Value.str "h")] :=
  (claim_C4_load_config _).2.2 _ _ rfl rfl

/-- C9: `get_telegram_config` reads the file as it is at call time
(ignoring the section cached at construction, so two instances with
different cached configs agree), returns the `telegram` section as a
mapping, and returns the empty mapping rather than raising when that
section is absent. -/
theorem claim_C9_get_telegram_config (dc dc' : DatabaseConfig) (file : ConfigFile) :
    get_telegram_config dc (some file) = .ok ((file.lookup "telegram").getD []) ∧
    (file.lookup "telegram" = none → get_telegram_config dc (some file) = .ok []) ∧
    get_telegram_config dc (some file) = get_telegram_config dc' (some file) := by
  refine ⟨rfl, ?_, rfl⟩
  intro h
  simp [get_telegram_config, h]

/-- Witness for C9: a file without a `telegram` section yields the empty
mapping, for two managers with different cached sections. -/
theorem claim_C9_get_telegram_config_witness :
    get_telegram_config ⟨cfgSample⟩ (some [("database", cfgSample)]) = .ok [] :=
  (claim_C9_get_telegram_config ⟨cfgSample⟩ ⟨[]⟩ _).2.1 rfl

/-- C6: `connect` passes to the driver the port `3306` when `port` is
absent from the database section and the charset `"utf8mb4"` when
`charset` is absent, while explicit configured values override; the
parameters recorded on the connect call are exactly those built from the
config. -/
theorem claim_C6_connect_defaults (d : Driver) (cfg : ConfigSection)
    (st : ConnState) (h u pw db : Value)
    (hh : cfg.lookup "host" = some h) (hu : cfg.lookup "user" = some u)
    (hpw : cfg.lookup "password" = some pw) (hdb : cfg.lookup "database" = some db) :
    ∃ p, connectParams cfg = .ok p ∧
      (connect d cfg st).2.2 = [.connectCall p] ∧
      (cfg.lookup "port" = none → p.port = .int 3306) ∧
      (∀ v, cfg.lookup "port" = some v → p.port = v) ∧
      (cfg.lookup "charset" = none → p.charset = .str "utf8mb4") ∧
      (∀ v, cfg.lookup "charset" = some v → p.charset = v) := by
  refine ⟨{ host := h, port := (cfg.lookup "port").getD (.int 3306), user := u,
            password := pw, database := db,
            charset := (cfg.lookup "charset").getD (.str "utf8mb4") },
    ?_, ?_, ?_, ?_, ?_, ?_⟩
  · simp [connectParams, hh, hu, hpw, hdb]
  · rcases hc : d.connectRes with m | b <;>
      simp [connect, connectParams, hh, hu, hpw, hdb, hc]
  · intro hp
    simp [hp]
  · intro v hp
    simp [hp]
  · intro hp
    simp [hp]
  · intro v hp
    simp [hp]

/-- Witness for C6 at a config providing explicit port and charset. -/
theorem claim_C6_connect_defaults_witness :
    ∃ p, connectParams cfgExplicit = .ok p ∧
      (connect driverAllOk cfgExplicit none).2.2 = [.connectCall p] ∧
      (cfgExplicit.lookup "port" = none → p.port = .int 3306) ∧
      (∀ v, cfgExplicit.lookup "port" = some v → p.port = v) ∧
      (cfgExplicit.lookup "charset" = none → p.charset = .str "utf8mb4") ∧
      (∀ v, cfgExplicit.lookup "charset" = some v → p.charset = v) :=
  claim_C6_connect_defaults driverAllOk cfgExplicit none _ _ _ _ rfl rfl rfl rfl

/-- C8: when the driver's connect fails, `connect` propagates the driver
`Error` (the module's `ConnectionError`) carrying the underlying message,
and the stored connection handle is not updated, so a disconnected manager
stays disconnected. -/
theorem claim_C8_connect_failure (d : Driver) (cfg : ConfigSection)
    (st : ConnState) (p : ConnectParams) (m : String)
    (hp : connectParams cfg = .ok p) (hm : d.connectRes = .error m) :
    (connect d cfg st).1 = .error (.driver m) ∧
    isDriverRes (connect d cfg st).1 = true ∧
    (connect d cfg st).2.1 = st ∧
    (disconnectedSt st → disconnectedSt (connect d cfg st).2.1) := by
  have heq : connect d cfg st = (.error (.driver m), st, [.connectCall p]) := by
    simp [connect, hp, hm]
  rw [heq]
  exact ⟨rfl, rfl, rfl, fun hd => hd⟩

/-- Witness for C8: a refused connection on a never-connected manager. -/
theorem claim_C8_connect_failure_witness :
    (connect { driverAllOk with connectRes := .error "refused" } cfgSample none).1 =
      .error (.driver "refused") ∧
    isDriverRes (connect { driverAllOk with connectRes := .error "refused" } cfgSample none).1 = true ∧
    (connect { driverAllOk with connectRes := .error "refused" } cfgSample none).2.1 = none ∧
    (disconnectedSt none →
      disconnectedSt (connect { driverAllOk with connectRes := .error "refused" } cfgSample none).2.1) :=
  claim_C8_connect_failure { driverAllOk with connectRes := .error "refused" }
    cfgSample none _ "refused" rfl rfl

/-! ## Schema execution -/

lemma splitStatements_ne_empty (sql : String) : ∀ s ∈ splitStatements sql, s ≠ "" := by
  intro s hs
  simp only [splitStatements, List.mem_map, List.mem_filter] at hs
  obtain ⟨l, ⟨_, hlne⟩, rfl⟩ := hs
  intro h
  have hdata : l = [] := congrArg String.data h
  simp [hdata] at hlne

lemma executedOf_map_execute (l : List String) : executedOf (l.map .execute) = l := by
  induction l with
  | nil => rfl
  | cons s rest ih => simp [executedOf, ih]

lemma countEv_map_execute (e : Event) (l : List String) (he : ∀ s, e ≠ .execute s) :
    countEv e (l.map .execute) = 0 := by
  induction l with
  | nil => rfl
  | cons s rest ih =>
    rw [List.map_cons, countEv_cons, if_neg (fun hh => he s hh.symm), ih]

lemma runStatements_all_ok (d : Driver) (l : List String)
    (hok : ∀ s ∈ l, d.executeRes s = none) (hne : ∀ s ∈ l, s ≠ "") :
    runStatements d l = (.ok (), l.map .execute) := by
  induction l with
  | nil => rfl
  | cons s rest ih =>
    have hs := hne s (by simp)
    have hok' := hok s (by simp)
    have ihh := ih (fun t ht => hok t (by simp [ht])) (fun t ht => hne t (by simp [ht]))
    simp [runStatements, hs, hok', ihh]

lemma runStatements_first_err (d : Driver) (pre : List String) (s : String)
    (post : List String) (m : String)
    (hpre : ∀ t ∈ pre, d.executeRes t = none) (hprene : ∀ t ∈ pre, t ≠ "")
    (hs : s ≠ "") (hm : d.executeRes s = some m) :
    runStatements d (pre ++ s :: post) = (.error (.driver m), (pre ++ [s]).map .execute) := by
  induction pre with
  | nil => simp [runStatements, hs, hm]
  | cons t rest ih =>
    have h1 := hprene t (by simp)
    have h2 := hpre t (by simp)
    have ihh := ih (fun x hx => hpre x (by simp [hx])) (fun x hx => hprene x (by simp [hx]))
    simp [runStatements, h1, h2, ihh]

/-- Evaluation of `get_cursor` around a block that raised a driver `Error`, when rollback
and cursor close themselves succeed. -/
lemma get_cursor_eq_block_driver_err {α : Type} (d : Driver) (cfg : ConfigSection)
    (st : ConnState) (m : String) (btr : List Event) (st1 : ConnState) (tr0 : List Event)
    (hpre : preBlock d cfg st = (.ok (), st1, true, tr0)) (hst1 : st1 ≠ none)
    (hrb : d.rollbackRes = none) (hcl : d.cursorCloseRes = none) :
    get_cursor d cfg st ((Except.error (Exc.driver m) : Except Exc α), btr) =
      (.error (.driver m), st1, tr0 ++ btr ++ [.rollback, .cursorClose]) := by
  simp [get_cursor, hpre, hst1, hrb, hcl]

/-- Evaluation of `get_cursor` around a normally-completing block, when commit and cursor
close succeed. -/
lemma get_cursor_eq_block_ok {α : Type} (d : Driver) (cfg : ConfigSection)
    (st : ConnState) (a : α) (btr : List Event) (st1 : ConnState) (tr0 : List Event)
    (hpre : preBlock d cfg st = (.ok (), st1, true, tr0))
    (hcm : d.commitRes = none) (hcl : d.cursorCloseRes = none) :
    get_cursor d cfg st (.ok a, btr) = (.ok a, st1, tr0 ++ btr ++ [.commit, .cursorClose]) := by
  simp [get_cursor, hpre, hcm, hcl]

/-- C2: `execute_schema` splits the schema text on `;`, discards
whitespace-only fragments, and executes the remaining statements in file
order inside a single `get_cursor` scope: if all succeed, exactly they are
executed and the one commit covers them all (no rollback); if one fails,
exactly the statements up to and including the first failing one were
executed, nothing is committed, and the single rollback undoes them all as
the error propagates. -/
theorem claim_C2_execute_schema (d : Driver) (cfg : ConfigSection)
    (st : ConnState) (sql : String)
    (hreach : reaches d cfg st) (hcm : d.commitRes = none)
    (hrb : d.rollbackRes = none) (hcl : d.cursorCloseRes = none) :
    ((∀ s ∈ splitStatements sql, d.executeRes s = none) →
      (execute_schema d cfg st (some sql)).1 = .ok () ∧
      executedOf (execute_schema d cfg st (some sql)).2.2 = splitStatements sql ∧
      countEv .commit (execute_schema d cfg st (some sql)).2.2 = 1 ∧
      countEv .rollback (execute_schema d cfg st (some sql)).2.2 = 0) ∧
    (∀ pre s post m, splitStatements sql = pre ++ s :: post →
      (∀ t ∈ pre, d.executeRes t = none) → d.executeRes s = some m →
      (execute_schema d cfg st (some sql)).1 = .error (.driver m) ∧
      executedOf (execute_schema d cfg st (some sql)).2.2 = pre ++ [s] ∧
      countEv .commit (execute_schema d cfg st (some sql)).2.2 = 0 ∧
      countEv .rollback (execute_schema d cfg st (some sql)).2.2 = 1) := by
  obtain ⟨st1, tr0, hpre, hst1, hc0, hr0, hcl0, hex0⟩ := preBlock_reaches hreach
  have hsch : execute_schema d cfg st (some sql) =
      get_cursor d cfg st (runStatements d (splitStatements sql)) := rfl
  constructor
  · intro hok
    have hblock := runStatements_all_ok d (splitStatements sql) hok (splitStatements_ne_empty sql)
    rw [hsch, hblock,
      get_cursor_eq_block_ok d cfg st () ((splitStatements sql).map .execute) st1 tr0 hpre hcm hcl]
    refine ⟨rfl, ?_, ?_, ?_⟩
    · simp [executedOf_append, hex0, executedOf_map_execute, executedOf]
    · simp [countEv_append, hc0, countEv_map_execute Event.commit _ (fun s => by simp),
        countEv_cons, countEv_nil]
    · simp [countEv_append, hr0, countEv_map_execute Event.rollback _ (fun s => by simp),
        countEv_cons, countEv_nil]
  · intro pre s post m hsplit hpreok hm
    have hprene : ∀ t ∈ pre, t ≠ "" := by
      intro t ht
      exact splitStatements_ne_empty sql t (by rw [hsplit]; exact List.mem_append_left _ ht)
    have hsne : s ≠ "" := splitStatements_ne_empty sql s (by rw [hsplit]; simp)
    have hblock := runStatements_first_err d pre s post m hpreok hprene hsne hm
    rw [hsch, hsplit, hblock,
      get_cursor_eq_block_driver_err d cfg st m ((pre ++ [s]).map .execute) st1 tr0 hpre hst1 hrb hcl]
    refine ⟨rfl, ?_, ?_, ?_⟩
    · simp [executedOf_append, hex0, executedOf_map_execute, executedOf]
    · simp [countEv_append, hc0, countEv_map_execute Event.commit _ (fun s => by simp),
        countEv_cons, countEv_nil]
    · simp [countEv_append, hr0, countEv_map_execute Event.rollback _ (fun s => by simp),
        countEv_cons, countEv_nil]

/-- Witness for C2 at the spec's concrete schema text: exactly the two
CREATE TABLE statements are executed, the blank fragment being skipped, in
one committed transaction. -/
theorem claim_C2_execute_schema_witness :
    (execute_schema driverAllOk cfgSample (some true) (some sqlC2)).1 = .ok () ∧
    executedOf (execute_schema driverAllOk cfgSample (some true) (some sqlC2)).2.2 =
      ["CREATE TABLE a(id INT)", "CREATE TABLE b(id INT)"] ∧
    countEv .commit (execute_schema driverAllOk cfgSample (some true) (some sqlC2)).2.2 = 1 ∧
    countEv .rollback (execute_schema driverAllOk cfgSample (some true) (some sqlC2)).2.2 = 0 := by
  have h := (claim_C2_execute_schema driverAllOk cfgSample (some true) sqlC2
    ⟨Or.inl rfl, rfl⟩ rfl rfl rfl).1 (by decide)
  exact ⟨h.1, h.2.1.trans (by decide), h.2.2.1, h.2.2.2⟩

/-- Counterexample to C7 as stated: when reading the schema file fails,
`execute_schema` does not fail with a driver `ConnectionError` — the
`except Error` clause does not catch the `FileNotFoundError` from `open`,
so the file error itself propagates. -/
theorem claim_C7_counterexample :
    (execute_schema driverAllOk cfgSample (some true) none).1 =
      .error (.fileNotFound "schema file not found") ∧
    isDriverRes (execute_schema driverAllOk cfgSample (some true) none).1 = false :=
  ⟨rfl, rfl⟩

/-- C7 (amended): `execute_schema` fails by propagating the underlying
file error (not a driver `ConnectionError`) when reading the schema file
fails, and fails with the driver `ConnectionError` when any individual
statement's execution fails, having executed exactly the statements up to
and including the failing one — no partial-application recovery. -/
theorem claim_C7_amended (d : Driver) (cfg : ConfigSection) (st : ConnState)
    (sql : String) (hreach : reaches d cfg st)
    (hrb : d.rollbackRes = none) (hcl : d.cursorCloseRes = none) :
    ((execute_schema d cfg st none).1 = .error (.fileNotFound "schema file not found") ∧
      isDriverRes (execute_schema d cfg st none).1 = false) ∧
    (∀ pre s post m, splitStatements sql = pre ++ s :: post →
      (∀ t ∈ pre, d.executeRes t = none) → d.executeRes s = some m →
      (execute_schema d cfg st (some sql)).1 = .error (.driver m) ∧
      isDriverRes (execute_schema d cfg st (some sql)).1 = true ∧
      executedOf (execute_schema d cfg st (some sql)).2.2 = pre ++ [s]) := by
  obtain ⟨st1, tr0, hpre, hst1, hc0, hr0, hcl0, hex0⟩ := preBlock_reaches hreach
  refine ⟨⟨rfl, rfl⟩, ?_⟩
  intro pre s post m hsplit hpreok hm
  have hprene : ∀ t ∈ pre, t ≠ "" := by
    intro t ht
    exact splitStatements_ne_empty sql t (by rw [hsplit]; exact List.mem_append_left _ ht)
  have hsne : s ≠ "" := splitStatements_ne_empty sql s (by rw [hsplit]; simp)
  have hblock := runStatements_first_err d pre s post m hpreok hprene hsne hm
  have hsch : execute_schema d cfg st (some sql) =
      get_cursor d cfg st (runStatements d (splitStatements sql)) := rfl
  rw [hsch, hsplit, hblock,
    get_cursor_eq_block_driver_err d cfg st m ((pre ++ [s]).map .execute) st1 tr0 hpre hst1 hrb hcl]
  refine ⟨rfl, rfl, ?_⟩
  simp [executedOf_append, hex0, executedOf_map_execute, executedOf]

/-- Witness for the amended C7 at a driver that rejects the second
statement of the sample schema. -/
theorem claim_C7_amended_witness :
    ((execute_schema driverFailB cfgSample (some true) none).1 =
        .error (.fileNotFound "schema file not found") ∧
      isDriverRes (execute_schema driverFailB cfgSample (some true) none).1 = false) ∧
    ((execute_schema driverFailB cfgSample (some true) (some sqlC2)).1 =
        .error (.driver "dup") ∧
      isDriverRes (execute_schema driverFailB cfgSample (some true) (some sqlC2)).1 = true ∧
      executedOf (execute_schema driverFailB cfgSample (some true) (some sqlC2)).2.2 =
        ["CREATE TABLE a(id INT)", "CREATE TABLE b(id INT)"]) := by
  have h := claim_C7_amended driverFailB cfgSample (some true) sqlC2
    ⟨Or.inl rfl, rfl⟩ rfl rfl
  refine ⟨h.1, ?_⟩
  have h2 := h.2 ["CREATE TABLE a(id INT)"] "CREATE TABLE b(id INT)" [] "dup"
    (by decide) (by decide) (by decide)
  exact ⟨h2.1, h2.2.1, h2.2.2⟩

/-! ## `test_connection` -/

/-- The `SELECT VERSION()` block either returns normally or raises a
driver `Error`. -/
lemma testBlock_okOrDriver (d : Driver) : okOrDriverRes (testBlock d).1 = true := by
  rcases hex : d.executeRes "SELECT VERSION()" with _ | m <;>
    rcases hf : d.fetchoneRes with _ | m2 <;>
      simp [testBlock, hex, hf, okOrDriverRes]

/-- After a successful `connect` left the handle `some b`, the pre-yield
phase of `get_cursor` leaves the handle at `some b` (reconnecting changes
nothing, since the driver connects the same way) and fails only with
driver errors. -/
lemma preBlock_connect_ok (d : Driver) (cfg : ConfigSection) (b : Bool)
    (p : ConnectParams) (hp : connectParams cfg = .ok p) (hc : d.connectRes = .ok b) :
    ∃ res cm tr, preBlock d cfg (some b) = (res, some b, cm, tr) ∧
      okOrDriverRes res = true := by
  cases b
  · rcases hcur : d.cursorRes with _ | mc
    · exact ⟨.ok (), true, [.connectCall p, .cursorCreate],
        by simp [preBlock, connect, hp, hc, hcur], rfl⟩
    · exact ⟨.error (.driver mc), false, [.connectCall p, .cursorCreate],
        by simp [preBlock, connect, hp, hc, hcur], rfl⟩
  · rcases hcur : d.cursorRes with _ | mc
    · exact ⟨.ok (), true, [.cursorCreate], by simp [preBlock, hcur], rfl⟩
    · exact ⟨.error (.driver mc), false, [.cursorCreate], by simp [preBlock, hcur], rfl⟩

/-- If the pre-yield phase and the block fail only with driver errors,
`get_cursor` as a whole returns normally or with a driver error (every
other outcome of commit, rollback and close is itself a driver error), and
its final handle is the one the pre-yield phase left. -/
lemma get_cursor_okOrDriver {α : Type} (d : Driver) (cfg : ConfigSection) (st : ConnState)
    (block : Except Exc α × List Event)
    (res : Except Exc Unit) (st1 : ConnState) (cm : Bool) (tr : List Event)
    (hpre : preBlock d cfg st = (res, st1, cm, tr))
    (hres : okOrDriverRes res = true)
    (hb : okOrDriverRes block.1 = true) :
    okOrDriverRes (get_cursor d cfg st block).1 = true ∧
    (get_cursor d cfg st block).2.1 = st1 := by
  obtain ⟨bres, btr⟩ := block
  simp only at hb
  cases res with
  | error e =>
    cases e with
    | driver m =>
      by_cases hstn : st1 = none
      · cases cm <;>
          rcases hclo : d.cursorCloseRes with _ | m3 <;>
            simp [get_cursor, hpre, hstn, hclo, okOrDriverRes]
      · rcases hrb : d.rollbackRes with _ | m2 <;>
          cases cm <;>
            rcases hclo : d.cursorCloseRes with _ | m3 <;>
              simp [get_cursor, hpre, hstn, hrb, hclo, okOrDriverRes]
    | fileNotFound m => simp [okOrDriverRes] at hres
    | keyError m => simp [okOrDriverRes] at hres
    | valueError m => simp [okOrDriverRes] at hres
  | ok u =>
    cases bres with
    | error e =>
      cases e with
      | driver m =>
        by_cases hstn : st1 = none
        · cases cm <;>
            rcases hclo : d.cursorCloseRes with _ | m3 <;>
              simp [get_cursor, hpre, hstn, hclo, okOrDriverRes]
        · rcases hrb : d.rollbackRes with _ | m2 <;>
            cases cm <;>
              rcases hclo : d.cursorCloseRes with _ | m3 <;>
                simp [get_cursor, hpre, hstn, hrb, hclo, okOrDriverRes]
      | fileNotFound m => simp [okOrDriverRes] at hb
      | keyError m => simp [okOrDriverRes] at hb
      | valueError m => simp [okOrDriverRes] at hb
    | ok a =>
      rcases hcm : d.commitRes with _ | m1
      · cases cm <;>
          rcases hclo : d.cursorCloseRes with _ | m3 <;>
            simp [get_cursor, hpre, hcm, hclo, okOrDriverRes]
      · by_cases hstn : st1 = none
        · cases cm <;>
            rcases hclo : d.cursorCloseRes with _ | m3 <;>
              simp [get_cursor, hpre, hcm, hstn, hclo, okOrDriverRes]
        · rcases hrb : d.rollbackRes with _ | m2 <;>
            cases cm <;>
              rcases hclo : d.cursorCloseRes with _ | m3 <;>
                simp [get_cursor, hpre, hcm, hstn, hrb, hclo, okOrDriverRes]

/-- Counterexample to C3 as stated: with a database section lacking the
required `host` key (which `load_config` accepts, validating only the
presence of the section), `test_connection` propagates the `KeyError`
raised inside `connect` — `except Error` catches only driver errors — so
it does not convert every failure into a `false` return. -/
theorem claim_C3_counterexample :
    (test_connection driverAllOk [] none).1 = .error (.keyError "host") ∧
    isOkRes (test_connection driverAllOk [] none).1 = false :=
  ⟨rfl, rfl⟩

/-- C3 (amended): provided the database section has the required connection
keys and the final close performed by `disconnect` does not itself fail,
`test_connection` never propagates an exception — it returns `true` when
everything succeeds, `false` on any driver-error failure — and in every
case the manager is disconnected before the method returns. -/
theorem claim_C3_amended (d : Driver) (cfg : ConfigSection) (st : ConnState)
    (p : ConnectParams) (hp : connectParams cfg = .ok p) (hclc : d.connCloseRes = none) :
    isOkRes (test_connection d cfg st).1 = true ∧
    disconnectedSt (test_connection d cfg st).2.1 ∧
    (d.connectRes = .ok true → d.cursorRes = none →
      d.executeRes "SELECT VERSION()" = none → d.fetchoneRes = none →
      d.commitRes = none → d.cursorCloseRes = none →
      (test_connection d cfg st).1 = .ok true) ∧
    (∀ m, d.connectRes = .error m → (test_connection d cfg st).1 = .ok false) := by
  rcases hc : d.connectRes with m | b
  · have hconn : connect d cfg st = (.error (.driver m), st, [.connectCall p]) := by
      simp [connect, hp, hc]
    have heq : (test_connection d cfg st).1 = .ok false ∧
        disconnectedSt (test_connection d cfg st).2.1 := by
      rcases st with _ | b0
      · simp [test_connection, hconn, disconnect, disconnectedSt]
      · cases b0 <;> simp [test_connection, hconn, disconnect, hclc, disconnectedSt]
    refine ⟨by rw [heq.1]; rfl, heq.2, ?_, fun m' _ => heq.1⟩
    intro h1
    cases h1
  · have hconn : connect d cfg st = (.ok (), some b, [.connectCall p]) := by
      simp [connect, hp, hc]
    obtain ⟨res, cm, tr, hpreb, hres⟩ := preBlock_connect_ok d cfg b p hp hc
    have hgc := get_cursor_okOrDriver d cfg (some b) (testBlock d) res (some b) cm tr
      hpreb hres (testBlock_okOrDriver d)
    rcases hg : get_cursor d cfg (some b) (testBlock d) with ⟨r, st2, tr2⟩
    rw [hg] at hgc
    obtain ⟨hr, hst2⟩ := hgc
    simp only at hst2 hr
    subst hst2
    have hmain : ∃ bv, (test_connection d cfg st).1 = .ok bv ∧
        (test_connection d cfg st).2.1 = some false := by
      cases r with
      | ok a =>
        refine ⟨a, ?_, ?_⟩ <;> cases b <;>
          simp [test_connection, hconn, hg, disconnect, hclc]
      | error e =>
        cases e with
        | driver m2 =>
          refine ⟨false, ?_, ?_⟩ <;> cases b <;>
            simp [test_connection, hconn, hg, disconnect, hclc]
        | fileNotFound m2 => simp [okOrDriverRes] at hr
        | keyError m2 => simp [okOrDriverRes] at hr
        | valueError m2 => simp [okOrDriverRes] at hr
    obtain ⟨bv, hv1, hv2⟩ := hmain
    refine ⟨by rw [hv1]; rfl, by rw [hv2]; exact Or.inr rfl, ?_, ?_⟩
    · intro h1 h2 h3 h4 h5 h6
      have hb : b = true := by injection h1
      subst hb
      simp [test_connection, connect, hp, hc, get_cursor, preBlock, testBlock,
        h2, h3, h4, h5, h6, disconnect, hclc]
    · intro m' hm'
      cases hm'

/-- Witness for the amended C3: with an all-succeeding driver, a complete
config and a never-connected manager, the probe returns normally
(specifically `true`) and ends disconnected. -/
theorem claim_C3_amended_witness :
    isOkRes (test_connection driverAllOk cfgSample none).1 = true ∧
    disconnectedSt (test_connection driverAllOk cfgSample none).2.1 ∧
    (test_connection driverAllOk cfgSample none).1 = .ok true := by
  have h := claim_C3_amended driverAllOk cfgSample none
    { host := .str "localhost", port := .int 3306, user := .str "root",
      password := .str "pw", database := .str "tgdb", charset := .str "utf8mb4" }
    rfl rfl
  exact ⟨h.1, h.2.1, h.2.2.1 rfl rfl rfl rfl rfl rfl⟩

end DbConn
